import Mathlib

set_option maxHeartbeats 1000000
set_option linter.unusedVariables false

/-!
Verification development for the `save_dummy.py` driver script of the
wuerzb15 repository.  The script wires five stages of a stylometric
pipeline — load, preprocess, tokenize, vectorize, serialize — around the
external `pystyl` library and pickles the 4-tuple
(titles, authors, feature names, dense matrix) to the fixed path
"dummy.p".  The driver's own lines are embedded directly; the external
library stages, which are not part of this repository's sources, are
modelled from the specification's contracts and carry doc comments
starting with "Modelled from the spec".
-/

namespace SaveDummy

/-- Error taxonomy of the specification: LoadError (missing or invalid
source directory), TokenizeError (malformed input text), and
SerializationError (I/O failure on write). -/
inductive PipelineError where
  | loadError
  | tokenizeError
  | serializationError
deriving DecidableEq

/-- A single text document: title, author label, raw text, and the token
sequence produced by the tokenization stage. -/
structure Document where
  title : String
  author : String
  raw_text : String
  tokens : List String
deriving DecidableEq

/-- Fallback document used only as the default of total list lookups. -/
def dummyDoc : Document :=
  { title := "", author := "", raw_text := "", tokens := [] }

/-- The corpus: an ordered collection of documents plus a language tag. -/
structure Corpus where
  language : String
  docs : List Document
deriving DecidableEq

/-- The `corpus.titles` attribute: title of each document, in corpus order. -/
def Corpus.titles (c : Corpus) : List String :=
  c.docs.map (fun d => d.title)

/-- The `corpus.target_idx` attribute: the distinct author labels, first
occurrence order, mapping a class index to its label. -/
def Corpus.target_idx (c : Corpus) : List String :=
  (c.docs.map (fun d => d.author)).dedup

/-- The `corpus.target_ints` attribute: for each document, the class index
of its author label inside `target_idx`. -/
def Corpus.target_ints (c : Corpus) : List Nat :=
  c.docs.map (fun d => c.target_idx.indexOf d.author)

/-- One entry of the input directory listing: file name, author label,
raw text content. -/
structure FileEntry where
  name : String
  author : String
  text : String
deriving DecidableEq

/-- Modelled from the spec: the Loader (pystyl `Corpus(language=...)` plus
`corpus.add_directory`, not in this repository's sources) enumerates the
text documents of a directory, associating each with a title and an author
label, and fails with LoadError when the directory is absent (`none`) or
contains zero documents. -/
def loadCorpus (language : String) (dir : Option (List FileEntry)) :
    Except PipelineError Corpus :=
  match dir with
  | none => .error .loadError
  | some entries =>
    if entries.isEmpty then .error .loadError
    else .ok { language := language,
               docs := entries.map (fun e =>
                 { title := e.name, author := e.author,
                   raw_text := e.text, tokens := [] }) }

/-- Modelled from the spec: the normalization applied by preprocessing is
owned externally and unspecified; it is modelled as case-folding. -/
def normalizeText (s : String) : String :=
  String.mk (s.data.map Char.toLower)

/-- Modelled from the spec: the Preprocessor (pystyl `corpus.preprocess`)
normalizes each document's raw text in place. -/
def preprocess (c : Corpus) : Corpus :=
  { c with docs := c.docs.map (fun d => { d with raw_text := normalizeText d.raw_text }) }

/-- Modelled from the spec: a text the external tokenizer rejects as
malformed, modelled as text containing a NUL character. -/
def malformedText (s : String) : Bool :=
  s.data.any (fun ch => ch.toNat = 0)

/-- Splits a character list into whitespace-separated words. -/
def splitWordsAux : List Char → List Char → List String
  | [], acc => if acc.isEmpty then [] else [String.mk acc.reverse]
  | ch :: rest, acc =>
    if ch = ' ' then
      if acc.isEmpty then splitWordsAux rest []
      else String.mk acc.reverse :: splitWordsAux rest []
    else splitWordsAux rest (ch :: acc)

/-- Modelled from the spec: word segmentation of normalized text. -/
def wordsOf (s : String) : List String :=
  splitWordsAux s.data []

/-- Modelled from the spec: the Tokenizer (pystyl `corpus.tokenize`, not in
this repository's sources) splits each document's normalized text into a
token sequence bounded by `max_size`, failing with TokenizeError when the
external tokenizer rejects malformed input; a document whose normalized
text is empty yields an empty token sequence, not an error. -/
def tokenize (max_size : Nat) (c : Corpus) : Except PipelineError Corpus :=
  if c.docs.any (fun d => malformedText d.raw_text) then .error .tokenizeError
  else .ok { c with docs := c.docs.map (fun d =>
    { d with tokens := (wordsOf d.raw_text).take max_size }) }

/-- All tokens of the corpus, in corpus order. -/
def corpusTokens (c : Corpus) : List String :=
  (c.docs.map (fun d => d.tokens)).flatten

/-- The distinct terms of the tokenized corpus, first occurrence order. -/
def distinctTerms (c : Corpus) : List String :=
  (corpusTokens c).dedup

/-- Corpus-wide frequency of a term. -/
def termFreq (c : Corpus) (t : String) : Nat :=
  (corpusTokens c).count t

/-- Comparator for the most-frequent-items ordering: `a` strictly more
frequent than `b`. -/
def moreFrequent (c : Corpus) (a b : String) : Bool :=
  termFreq c b < termFreq c a

/-- Inserts a term into a frequency-sorted list, after existing terms of
equal frequency (the deterministic tie-break rule of this model). -/
def insertTerm (c : Corpus) (a : String) : List String → List String
  | [] => [a]
  | b :: bs => if moreFrequent c a b then a :: b :: bs else b :: insertTerm c a bs

/-- Sorts terms by decreasing corpus-wide frequency (insertion sort, with
the deterministic tie-break of `insertTerm`). -/
def sortTerms (c : Corpus) : List String → List String
  | [] => []
  | a :: as => insertTerm c a (sortTerms c as)

/-- The vectorizer object: ordered vocabulary (`feature_names`) and the
document-by-term matrix `X` (row per document, column per feature). -/
structure Vectorizer where
  feature_names : List String
  X : List (List Nat)
deriving DecidableEq

/-- Modelled from the spec: the Vectorizer (pystyl `corpus.vectorize`, not
in this repository's sources) restricts the vocabulary to the `mfi` most
frequent terms corpus-wide (tie-break rule deliberately fixed, since the
script leaves it to the external library) and builds the term-frequency
matrix; only the `ngram_type="word"`, `vector_space="tf"` configuration the
script uses is modelled, so the cell value is the raw term count. -/
def vectorize (mfi : Nat) (ngram_type vector_space : String) (c : Corpus) :
    Vectorizer :=
  let names := (sortTerms c (distinctTerms c)).take mfi
  { feature_names := names,
    X := c.docs.map (fun d => names.map (fun t => d.tokens.count t)) }

/-- Line 11 of `save_dummy.py`:
`authors = [corpus.target_idx[i] for i in corpus.target_ints]`. -/
def authorsOf (c : Corpus) : List String :=
  c.target_ints.map (fun i => c.target_idx.getD i "")

/-- The five pipeline stages, used to record the execution trace. -/
inductive Stage where
  | load
  | preprocess
  | tokenize
  | vectorize
  | serialize
deriving DecidableEq

/-- The full stage order of the script. -/
def fullStages : List Stage :=
  [.load, .preprocess, .tokenize, .vectorize, .serialize]

/-- One line of the script's standard output: the matrix shape, the titles
list, the authors list, the feature-name list, or an uncaught error
diagnostic. -/
inductive Output where
  | shape (rows cols : Nat)
  | titlesOut (ts : List String)
  | authorsOut (as : List String)
  | wordsOut (ws : List String)
  | diagnostic (e : PipelineError)
deriving DecidableEq

/-- The serialized artifact: the 4-tuple
(titles, authors, vocabulary terms, dense matrix), in that order, exactly
as passed to `pickle.dump` on line 16. -/
abbrev Artifact := List String × List String × List String × List (List Nat)

/-- The file system visible to the script: whether the target path is
writable, and the artifact stored at each path. -/
structure FileSystem where
  writable : Bool
  files : String → Option Artifact

/-- Modelled from the spec: `pickle.dump(..., open(path, "wb"))` writes the
artifact at `path`, overwriting any existing artifact there, and fails with
SerializationError on an unwritable path. -/
def writeArtifact (fs : FileSystem) (path : String) (a : Artifact) :
    Except PipelineError FileSystem :=
  if fs.writable then
    .ok { writable := fs.writable,
          files := fun p => if p = path then some a else fs.files p }
  else .error .serializationError

/-- The observable result of one script run: the stages that ran to
completion in order, the standard output, the final file system, and the
process exit code. -/
structure ScriptResult where
  stages : List Stage
  stdout : List Output
  fs : FileSystem
  exitCode : Nat

/-- The whole of `save_dummy.py`, parametric in the five configuration
values the script hardcodes.  Lines 2-6 run the stages in order, lines
7-14 print the matrix shape, titles, authors and feature names, and line
16 pickles the 4-tuple to "dummy.p".  Any stage error aborts the script
immediately with a diagnostic and exit code 1. -/
def runScriptWith (language : String) (max_size mfi : Nat)
    (ngram_type vector_space : String)
    (dir : Option (List FileEntry)) (fs : FileSystem) : ScriptResult :=
  match loadCorpus language dir with
  | .error e => { stages := [], stdout := [.diagnostic e], fs := fs, exitCode := 1 }
  | .ok corpus0 =>
    let corpus1 := preprocess corpus0
    match tokenize max_size corpus1 with
    | .error e =>
      { stages := [.load, .preprocess], stdout := [.diagnostic e], fs := fs, exitCode := 1 }
    | .ok corpus =>
      let vec := vectorize mfi ngram_type vector_space corpus
      let X := vec.X
      let titles := corpus.titles
      let authors := authorsOf corpus
      let words := vec.feature_names
      let out := [Output.shape X.length words.length, Output.titlesOut titles,
                  Output.authorsOut authors, Output.wordsOut words]
      match writeArtifact fs "dummy.p" (titles, authors, words, X) with
      | .error e =>
        { stages := [.load, .preprocess, .tokenize, .vectorize],
          stdout := out ++ [.diagnostic e], fs := fs, exitCode := 1 }
      | .ok fs1 =>
        { stages := fullStages, stdout := out, fs := fs1, exitCode := 0 }

/-- The script as invoked: it reads no environment variable and no CLI
argument, and runs the pipeline with the hardcoded configuration
language="en", max_size=50000, mfi=100, ngram_type="word",
vector_space="tf". -/
def runScript (env : List (String × String)) (argv : List String)
    (dir : Option (List FileEntry)) (fs : FileSystem) : ScriptResult :=
  runScriptWith "en" 50000 100 "word" "tf" dir fs

/-- A two-document sample directory listing. -/
def sampleEntries : List FileEntry :=
  [{ name := "a.txt", author := "Smith", text := "the cat sat" },
   { name := "b.txt", author := "Jones", text := "the dog sat" }]

/-- A sample writable file system with no preexisting files. -/
def sampleFs : FileSystem :=
  { writable := true, files := fun _ => none }

/-- The sample corpus as it stands after load, preprocess and tokenize. -/
def sampleCorpus : Corpus :=
  { language := "en",
    docs := [{ title := "a.txt", author := "Smith", raw_text := "the cat sat",
               tokens := ["the", "cat", "sat"] },
             { title := "b.txt", author := "Jones", raw_text := "the dog sat",
               tokens := ["the", "dog", "sat"] }] }

/-- The corpus produced by the first three stages (load, preprocess,
tokenize), or the error of the stage that failed. -/
def pipelineCorpus (language : String) (max_size : Nat)
    (dir : Option (List FileEntry)) : Except PipelineError Corpus :=
  match loadCorpus language dir with
  | .error e => .error e
  | .ok c0 => tokenize max_size (preprocess c0)

/-- The 4-tuple the script pickles on a successful run. -/
def successArtifact (mfi : Nat) (nt vs : String) (c : Corpus) : Artifact :=
  (c.titles, authorsOf c, (vectorize mfi nt vs c).feature_names,
    (vectorize mfi nt vs c).X)

/-- The four print lines of a run that reaches line 16. -/
def successOut (mfi : Nat) (nt vs : String) (c : Corpus) : List Output :=
  [Output.shape (vectorize mfi nt vs c).X.length
     (vectorize mfi nt vs c).feature_names.length,
   Output.titlesOut c.titles,
   Output.authorsOut (authorsOf c),
   Output.wordsOut (vectorize mfi nt vs c).feature_names]

theorem insertTerm_length (c : Corpus) (a : String) (l : List String) :
    (insertTerm c a l).length = l.length + 1 := by
  induction l with
  | nil => rfl
  | cons b bs ih =>
    simp only [insertTerm]
    split <;> simp [ih]

theorem sortTerms_length (c : Corpus) (l : List String) :
    (sortTerms c l).length = l.length := by
  induction l with
  | nil => rfl
  | cons a as ih => simp [sortTerms, insertTerm_length, ih]

theorem vectorize_names_length (mfi : Nat) (nt vs : String) (c : Corpus) :
    (vectorize mfi nt vs c).feature_names.length
      = min mfi (distinctTerms c).length := by
  simp [vectorize, sortTerms_length]

theorem authorsOf_eq (c : Corpus) :
    authorsOf c = c.docs.map (fun d => d.author) := by
  unfold authorsOf Corpus.target_ints
  rw [List.map_map]
  apply List.map_congr_left
  intro d hd
  have hmem : d.author ∈ c.target_idx := by
    unfold Corpus.target_idx
    rw [List.mem_dedup]
    exact List.mem_map_of_mem _ hd
  have hlt : c.target_idx.indexOf d.author < c.target_idx.length :=
    List.indexOf_lt_length.mpr hmem
  simp only [Function.comp]
  rw [List.getD_eq_getElem _ _ hlt]
  exact List.getElem_indexOf hlt

theorem runScriptWith_cases (language : String) (max_size mfi : Nat)
    (nt vs : String) (dir : Option (List FileEntry)) (fs : FileSystem) :
    (∃ e stages0, (stages0 = ([] : List Stage) ∨ stages0 = [.load, .preprocess]) ∧
       pipelineCorpus language max_size dir = .error e ∧
       runScriptWith language max_size mfi nt vs dir fs =
         { stages := stages0, stdout := [.diagnostic e], fs := fs, exitCode := 1 }) ∨
    (∃ c, pipelineCorpus language max_size dir = .ok c ∧ fs.writable = false ∧
       runScriptWith language max_size mfi nt vs dir fs =
         { stages := [.load, .preprocess, .tokenize, .vectorize],
           stdout := successOut mfi nt vs c ++ [.diagnostic .serializationError],
           fs := fs, exitCode := 1 }) ∨
    (∃ c, pipelineCorpus language max_size dir = .ok c ∧ fs.writable = true ∧
       runScriptWith language max_size mfi nt vs dir fs =
         { stages := fullStages, stdout := successOut mfi nt vs c,
           fs := { writable := true,
                   files := fun p => if p = "dummy.p"
                     then some (successArtifact mfi nt vs c) else fs.files p },
           exitCode := 0 }) := by
  rcases hload : loadCorpus language dir with e | c0
  · left
    refine ⟨e, [], Or.inl rfl, ?_, ?_⟩
    · unfold pipelineCorpus; rw [hload]
    · unfold runScriptWith; rw [hload]
  · rcases htok : tokenize max_size (preprocess c0) with e | c
    · left
      refine ⟨e, [.load, .preprocess], Or.inr rfl, ?_, ?_⟩
      · unfold pipelineCorpus; rw [hload]; exact htok
      · unfold runScriptWith; rw [hload]; simp only [htok]
    · by_cases hw : fs.writable
      · right; right
        refine ⟨c, ?_, hw, ?_⟩
        · unfold pipelineCorpus; rw [hload]; exact htok
        · unfold runScriptWith; rw [hload]
          simp only [htok, writeArtifact, hw, if_true]
          simp [successOut, successArtifact]
      · right; left
        have hw' : fs.writable = false := by simpa using hw
        refine ⟨c, ?_, hw', ?_⟩
        · unfold pipelineCorpus; rw [hload]; exact htok
        · unfold runScriptWith; rw [hload]
          simp only [htok, writeArtifact, hw', if_false]
          simp [successOut]

theorem runScriptWith_success (dir : Option (List FileEntry)) (fs : FileSystem)
    (c : Corpus) (hpc : pipelineCorpus "en" 50000 dir = .ok c)
    (hw : fs.writable = true) :
    runScriptWith "en" 50000 100 "word" "tf" dir fs =
      { stages := fullStages, stdout := successOut 100 "word" "tf" c,
        fs := { writable := true,
                files := fun p => if p = "dummy.p"
                  then some (successArtifact 100 "word" "tf" c) else fs.files p },
        exitCode := 0 } := by
  rcases runScriptWith_cases "en" 50000 100 "word" "tf" dir fs with
    ⟨e, st, hst, hpc2, heq⟩ | ⟨c2, hpc2, hwf, heq⟩ | ⟨c2, hpc2, hwt, heq⟩
  · rw [hpc] at hpc2; exact Except.noConfusion hpc2
  · rw [hw] at hwf; exact Bool.noConfusion hwf
  · rw [hpc] at hpc2
    injection hpc2 with hc
    subst hc
    exact heq

theorem getD_map_of_lt {α β : Type} (f : α → β) (l : List α) (i : Nat)
    (h : i < l.length) (d : α) (d' : β) :
    (l.map f).getD i d' = f (l.getD i d) := by
  rw [List.getD_eq_getElem _ _ (by simpa using h), List.getElem_map,
      List.getD_eq_getElem _ _ h]

/-- C1: when the pipeline completes (exit code 0), the Serializer has
written exactly one on-disk artifact, at the fixed path "dummy.p",
whose content is pinned to the run's own 4-tuple
(titles, authors, vocabulary terms, dense matrix) in that order, computed
from the corpus `c` the first three stages produced; every other path is
untouched; and opening the target path for writing overwrites any
existing artifact: for every artifact `a0` already stored at "dummy.p"
beforehand, the run still ends with the fresh 4-tuple there, not `a0`'s
content. -/
theorem C1_serializer_single_artifact (env : List (String × String))
    (argv : List String) (dir : Option (List FileEntry)) (fs : FileSystem)
    (h : (runScript env argv dir fs).exitCode = 0) :
    ∃ c, pipelineCorpus "en" 50000 dir = .ok c ∧
      (runScript env argv dir fs).fs.files "dummy.p" =
        some (c.titles, authorsOf c,
          (vectorize 100 "word" "tf" c).feature_names,
          (vectorize 100 "word" "tf" c).X) ∧
      (∀ p, p ≠ "dummy.p" →
        (runScript env argv dir fs).fs.files p = fs.files p) ∧
      ∀ a0 : Artifact,
        (runScript env argv dir
          { writable := fs.writable,
            files := fun p => if p = "dummy.p" then some a0
              else fs.files p }).fs.files "dummy.p" =
          some (c.titles, authorsOf c,
            (vectorize 100 "word" "tf" c).feature_names,
            (vectorize 100 "word" "tf" c).X) := by
  unfold runScript at h ⊢
  rcases runScriptWith_cases "en" 50000 100 "word" "tf" dir fs with
    ⟨e, st, hst, hpc, heq⟩ | ⟨c, hpc, hwf, heq⟩ | ⟨c, hpc, hwt, heq⟩
  · rw [heq] at h; simp at h
  · rw [heq] at h; simp at h
  · refine ⟨c, hpc, ?_, ?_, ?_⟩
    · rw [heq]
      simp [successArtifact]
    · intro p hp
      rw [heq]
      simp [hp]
    · intro a0
      rw [runScriptWith_success dir
        { writable := fs.writable,
          files := fun p => if p = "dummy.p" then some a0 else fs.files p }
        c hpc hwt]
      simp [successArtifact]

/-- C1 witness: a concrete successful run on the two-document sample,
with a preexisting artifact overwritten in the last conjunct. -/
theorem C1_witness :
    (runScript [] [] (some sampleEntries) sampleFs).exitCode = 0 ∧
    (∃ c, pipelineCorpus "en" 50000 (some sampleEntries) = .ok c ∧
      (runScript [] [] (some sampleEntries) sampleFs).fs.files "dummy.p" =
        some (c.titles, authorsOf c,
          (vectorize 100 "word" "tf" c).feature_names,
          (vectorize 100 "word" "tf" c).X) ∧
      (∀ p, p ≠ "dummy.p" →
        (runScript [] [] (some sampleEntries) sampleFs).fs.files p =
          sampleFs.files p) ∧
      ∀ a0 : Artifact,
        (runScript [] [] (some sampleEntries)
          { writable := sampleFs.writable,
            files := fun p => if p = "dummy.p" then some a0
              else sampleFs.files p }).fs.files "dummy.p" =
          some (c.titles, authorsOf c,
            (vectorize 100 "word" "tf" c).feature_names,
            (vectorize 100 "word" "tf" c).X)) :=
  ⟨rfl, C1_serializer_single_artifact [] [] (some sampleEntries) sampleFs rfl⟩

/-- C2: the FeatureMatrix has one row per document, each row has one
column per vocabulary term, the titles and authors sequences have one
entry per document, and position i of titles, authors and the matrix all
describe document i (row i is the term-count vector of document i's
tokens). -/
theorem C2_matrix_shape_alignment (mfi : Nat) (nt vs : String) (c : Corpus)
    (i : Nat) (h : i < c.docs.length) :
    (vectorize mfi nt vs c).X.length = c.docs.length ∧
    (Corpus.titles c).length = c.docs.length ∧
    (authorsOf c).length = c.docs.length ∧
    (vectorize mfi nt vs c).X.getD i [] =
      (vectorize mfi nt vs c).feature_names.map
        (fun t => (c.docs.getD i dummyDoc).tokens.count t) ∧
    ((vectorize mfi nt vs c).X.getD i []).length =
      (vectorize mfi nt vs c).feature_names.length ∧
    (Corpus.titles c).getD i "" = (c.docs.getD i dummyDoc).title ∧
    (authorsOf c).getD i "" = (c.docs.getD i dummyDoc).author := by
  have hX : (vectorize mfi nt vs c).X = c.docs.map
      (fun d => (vectorize mfi nt vs c).feature_names.map
        (fun t => d.tokens.count t)) := rfl
  have hrow : (vectorize mfi nt vs c).X.getD i [] =
      (vectorize mfi nt vs c).feature_names.map
        (fun t => (c.docs.getD i dummyDoc).tokens.count t) := by
    rw [hX, getD_map_of_lt _ _ _ h dummyDoc]
  refine ⟨?_, ?_, ?_, hrow, ?_, ?_, ?_⟩
  · rw [hX]; simp
  · simp [Corpus.titles]
  · rw [authorsOf_eq]; simp
  · rw [hrow]; simp
  · unfold Corpus.titles
    rw [getD_map_of_lt _ _ _ h dummyDoc]
  · rw [authorsOf_eq, getD_map_of_lt _ _ _ h dummyDoc]

/-- C2 witness: the sample corpus evaluated at row 0. -/
theorem C2_witness :
    (vectorize 100 "word" "tf" sampleCorpus).X.length = 2 ∧
    (Corpus.titles sampleCorpus).length = 2 ∧
    (authorsOf sampleCorpus).length = 2 ∧
    (Corpus.titles sampleCorpus).getD 0 "" = "a.txt" ∧
    (authorsOf sampleCorpus).getD 0 "" = "Smith" := by
  have hh := C2_matrix_shape_alignment 100 "word" "tf" sampleCorpus 0 (by decide)
  refine ⟨?_, ?_, ?_, ?_, ?_⟩
  · rw [hh.1]; rfl
  · rw [hh.2.1]; rfl
  · rw [hh.2.2.1]; rfl
  · rw [hh.2.2.2.2.2.1]; rfl
  · rw [hh.2.2.2.2.2.2]; rfl

/-- C3: the script runs the pipeline with the hardcoded configuration
language="en", max_size=50000, mfi=100, ngram_type="word",
vector_space="tf", and neither the environment variables nor the CLI
arguments alter the run in any way. -/
theorem C3_hardcoded_configuration (env env2 : List (String × String))
    (argv argv2 : List String) (dir : Option (List FileEntry))
    (fs : FileSystem) :
    runScript env argv dir fs = runScriptWith "en" 50000 100 "word" "tf" dir fs ∧
    runScript env argv dir fs = runScript env2 argv2 dir fs :=
  ⟨rfl, rfl⟩

/-- C4: the vocabulary produced with mfi=100 has at most 100 entries, and
has fewer than 100 exactly when the corpus has fewer than 100 distinct
terms. -/
theorem C4_vocabulary_cap (nt vs : String) (c : Corpus) :
    (vectorize 100 nt vs c).feature_names.length ≤ 100 ∧
    ((vectorize 100 nt vs c).feature_names.length < 100 ↔
      (distinctTerms c).length < 100) := by
  have hlen := vectorize_names_length 100 nt vs c
  rw [hlen]
  exact ⟨Nat.min_le_left _ _, by omega⟩

/-- C5: the stages run strictly in the order load, preprocess, tokenize,
vectorize, serialize — the completed-stage trace is always a prefix of
that order — and either the run succeeds with exit code 0 having run all
five stages, or it fails with exit code 1 before completing them, leaving
the file system untouched (no partial output). -/
theorem C5_stage_order (env : List (String × String)) (argv : List String)
    (dir : Option (List FileEntry)) (fs : FileSystem) :
    (∃ n, (runScript env argv dir fs).stages = fullStages.take n) ∧
    (((runScript env argv dir fs).exitCode = 0 ∧
        (runScript env argv dir fs).stages = fullStages) ∨
      ((runScript env argv dir fs).exitCode = 1 ∧
        (runScript env argv dir fs).stages ≠ fullStages ∧
        (runScript env argv dir fs).fs = fs)) := by
  unfold runScript
  rcases runScriptWith_cases "en" 50000 100 "word" "tf" dir fs with
    ⟨e, st, hst, hpc, heq⟩ | ⟨c, hpc, hwf, heq⟩ | ⟨c, hpc, hwt, heq⟩
  · rw [heq]
    rcases hst with rfl | rfl
    · exact ⟨⟨0, rfl⟩, Or.inr ⟨rfl, by simp [fullStages], rfl⟩⟩
    · exact ⟨⟨2, rfl⟩, Or.inr ⟨rfl, by simp [fullStages], rfl⟩⟩
  · rw [heq]
    exact ⟨⟨4, rfl⟩, Or.inr ⟨rfl, by simp [fullStages], rfl⟩⟩
  · rw [heq]
    exact ⟨⟨5, rfl⟩, Or.inl ⟨rfl, rfl⟩⟩

/-- C6: every run exits with code 0 or 1; it exits 0 exactly when all five
stages completed, and it exits nonzero exactly when an uncaught error
diagnostic was printed. -/
theorem C6_error_propagation (env : List (String × String))
    (argv : List String) (dir : Option (List FileEntry)) (fs : FileSystem) :
    ((runScript env argv dir fs).exitCode = 0 ∨
      (runScript env argv dir fs).exitCode = 1) ∧
    ((runScript env argv dir fs).exitCode = 0 ↔
      (runScript env argv dir fs).stages = fullStages) ∧
    ((runScript env argv dir fs).exitCode ≠ 0 ↔
      ∃ e, Output.diagnostic e ∈ (runScript env argv dir fs).stdout) := by
  unfold runScript
  rcases runScriptWith_cases "en" 50000 100 "word" "tf" dir fs with
    ⟨e, st, hst, hpc, heq⟩ | ⟨c, hpc, hwf, heq⟩ | ⟨c, hpc, hwt, heq⟩
  · rw [heq]
    refine ⟨Or.inr rfl, ?_, ?_⟩
    · rcases hst with rfl | rfl <;> simp [fullStages]
    · constructor
      · intro _
        exact ⟨e, by simp⟩
      · intro _
        simp
  · rw [heq]
    refine ⟨Or.inr rfl, ?_, ?_⟩
    · simp [fullStages]
    · constructor
      · intro _
        exact ⟨.serializationError, by simp⟩
      · intro _
        simp
  · rw [heq]
    refine ⟨Or.inl rfl, by simp, ?_⟩
    constructor
    · intro h0
      exact absurd rfl h0
    · rintro ⟨e, he⟩
      simp [successOut] at he

/-- C7: an absent input directory, or one containing zero documents, makes
the loading stage fail fast with LoadError: the script prints the
diagnostic, exits with code 1, completes no stage, and leaves the file
system untouched, so no degenerate empty artifact is ever emitted. -/
theorem C7_empty_input_loaderror (env : List (String × String))
    (argv : List String) (fs : FileSystem) :
    runScript env argv none fs =
      { stages := [], stdout := [.diagnostic .loadError], fs := fs, exitCode := 1 } ∧
    runScript env argv (some []) fs =
      { stages := [], stdout := [.diagnostic .loadError], fs := fs, exitCode := 1 } :=
  ⟨rfl, rfl⟩

/-- C8: rerunning the pipeline on the unchanged input directory after a
successful run succeeds again and stores a bit-identical artifact — in
particular a bit-identical FeatureMatrix — at "dummy.p" (the model's
vectorizer tie-break rule is deterministic). -/
theorem C8_deterministic_rerun (env : List (String × String))
    (argv : List String) (dir : Option (List FileEntry)) (fs : FileSystem)
    (h : (runScript env argv dir fs).exitCode = 0) :
    (runScript env argv dir (runScript env argv dir fs).fs).exitCode = 0 ∧
    (runScript env argv dir (runScript env argv dir fs).fs).fs.files "dummy.p" =
      (runScript env argv dir fs).fs.files "dummy.p" := by
  unfold runScript at h ⊢
  rcases runScriptWith_cases "en" 50000 100 "word" "tf" dir fs with
    ⟨e, st, hst, hpc, heq⟩ | ⟨c, hpc, hwf, heq⟩ | ⟨c, hpc, hwt, heq⟩
  · rw [heq] at h; simp at h
  · rw [heq] at h; simp at h
  · rw [heq]
    rw [runScriptWith_success dir _ c hpc rfl]
    exact ⟨rfl, by simp⟩

/-- C8 witness: the sample run rerun on its own output file system. -/
theorem C8_witness :
    (runScript [] [] (some sampleEntries) sampleFs).exitCode = 0 ∧
    ((runScript [] [] (some sampleEntries)
        (runScript [] [] (some sampleEntries) sampleFs).fs).exitCode = 0 ∧
      (runScript [] [] (some sampleEntries)
          (runScript [] [] (some sampleEntries) sampleFs).fs).fs.files "dummy.p" =
        (runScript [] [] (some sampleEntries) sampleFs).fs.files "dummy.p") :=
  ⟨rfl, C8_deterministic_rerun [] [] (some sampleEntries) sampleFs rfl⟩

/-- C9: the authors sequence is computed by mapping every element of
`corpus.target_ints` through the `corpus.target_idx` lookup table in
order, so it has exactly the length of `target_ints`, and its i-th entry
is the label stored in `target_idx` at index `target_ints[i]`. -/
theorem C9_authors_mapping (c : Corpus) (i : Nat)
    (h : i < c.target_ints.length)
    (h2 : c.target_ints.getD i 0 < c.target_idx.length) :
    (authorsOf c).length = c.target_ints.length ∧
    (authorsOf c).getD i "" = c.target_idx.get ⟨c.target_ints.getD i 0, h2⟩ := by
  constructor
  · simp [authorsOf]
  · unfold authorsOf
    rw [getD_map_of_lt _ _ _ h 0, List.get_eq_getElem,
        List.getD_eq_getElem _ _ h2]

/-- C9 witness: the mapping evaluated on the sample corpus at index 0. -/
theorem C9_witness :
    (authorsOf sampleCorpus).length = sampleCorpus.target_ints.length ∧
    (authorsOf sampleCorpus).getD 0 "" =
      sampleCorpus.target_idx.get ⟨sampleCorpus.target_ints.getD 0 0, by decide⟩ :=
  C9_authors_mapping sampleCorpus 0 (by decide) (by decide)

/-- C10: on every successful run the script prints, in order, the shape of
the feature matrix, the titles list, the authors list, and the
feature-name list — exactly the four components then serialized — before
anything else and nothing more. -/
theorem C10_print_order (env : List (String × String)) (argv : List String)
    (dir : Option (List FileEntry)) (fs : FileSystem)
    (h : (runScript env argv dir fs).exitCode = 0) :
    ∃ ts as ws X,
      (runScript env argv dir fs).stdout =
        [Output.shape X.length ws.length, Output.titlesOut ts,
         Output.authorsOut as, Output.wordsOut ws] ∧
      (runScript env argv dir fs).fs.files "dummy.p" = some (ts, as, ws, X) := by
  unfold runScript at h ⊢
  rcases runScriptWith_cases "en" 50000 100 "word" "tf" dir fs with
    ⟨e, st, hst, hpc, heq⟩ | ⟨c, hpc, hwf, heq⟩ | ⟨c, hpc, hwt, heq⟩
  · rw [heq] at h; simp at h
  · rw [heq] at h; simp at h
  · rw [heq]
    exact ⟨c.titles, authorsOf c, (vectorize 100 "word" "tf" c).feature_names,
      (vectorize 100 "word" "tf" c).X, by simp [successOut], by simp [successArtifact]⟩

/-- C10 witness: the four print lines of the concrete sample run. -/
theorem C10_witness :
    (runScript [] [] (some sampleEntries) sampleFs).exitCode = 0 ∧
    (∃ ts as ws X,
      (runScript [] [] (some sampleEntries) sampleFs).stdout =
        [Output.shape X.length ws.length, Output.titlesOut ts,
         Output.authorsOut as, Output.wordsOut ws] ∧
      (runScript [] [] (some sampleEntries) sampleFs).fs.files "dummy.p" =
        some (ts, as, ws, X)) :=
  ⟨rfl, C10_print_order [] [] (some sampleEntries) sampleFs rfl⟩

end SaveDummy
